import Mathlib

/-!
# Slave node of the radio-synchronised drum swarm (`Slave/main.c`)

A shallow embedding of `src/Slave/main.c`: the virtual clock and its timer
interrupt, the clock adjustment with catch-up (`updateClock`), the message
dispatch, the scheduled-hit check, the stick state machine and the body of the
`while(1)` loop of `main_process`.

Conventions.

* `uint32_t` values are natural numbers; every addition that can overflow is
  reduced modulo `2^32 = 4294967296` at the place where the C code adds.
* `uint8_t` reads of the message buffer are reduced modulo `256`.
* The timer interrupt `Timer1A0ISR` can run between any two statements of the
  control loop except inside `getVirtualClock`/`setVirtualClock`, which mask
  it.  The interrupt touches only `virtualClock` and the green LED, and the
  loop touches `virtualClock` only through the two accessors, so an
  interleaving is determined by how many interrupts are delivered before each
  clock access.  These counts are explicit arguments (`irq...`).
* Calls that leave the node are recorded in traces: `sent` for
  `unicast_send`, `drum` for `hitDrum`.
* `kickWatchdog`, `statusLog`, `debugLog` and the `sprintf` calls that only
  fill `debugStr` have no effect on the modelled state and are left out.
* `header.h`, `fifo_utils.h`, `drum_utils.h` and `utils.h` are not among the
  sources.  Their constants are fields of `Config`; the FIFO is modelled from
  the specification.
-/

namespace WizziSlave

/-- Modelled from the spec: the stick states `READY`, `HIT`, `RETRACTED` of
`header.h` (absent), which the spec lists as the three actuator states
Ready, Engaged, Retracted; they are taken to be pairwise distinct. -/
inductive StickStatus where
  | READY
  | HIT
  | RETRACTED
deriving DecidableEq

/-- Constants of `header.h` (absent from the sources), kept as parameters:
the four opcodes, the acknowledge bit, the identity bit of this node, the
cooldown, whether `SINGLE_STICK` is defined, and the capacity of the FIFO. -/
structure Config where
  CLKREQ : Nat
  SETCLK : Nat
  SCHDL : Nat
  CANCEL : Nat
  ACK : Nat
  MY_ID : Nat
  COOLDOWN : Nat
  SINGLE_STICK : Bool
  FIFO_SIZE : Nat
deriving DecidableEq

/-- The variables of `main.c` together with the traces of its outward calls. -/
structure State where
  /-- The variable `static volatile uint32_t virtualClock`. -/
  virtualClock : Nat
  /-- The variable `static volatile uint8_t playNow`. -/
  playNow : Nat
  /-- the schedule queue of `fifo_utils.h`, oldest entry first -/
  fifo : List Nat
  /-- The variable `static uint8_t oldMsgCnt`. -/
  oldMsgCnt : Nat
  /-- The variable `static uint32_t retractTime`. -/
  retractTime : Nat
  /-- The variable `static uint8_t stickStatus`. -/
  stickStatus : StickStatus
  /-- frames handed to `unicast_send`, with their destination, oldest first -/
  sent : List (List Nat × Nat)
  /-- arguments of the calls of `hitDrum`, oldest first -/
  drum : List Nat
  /-- green LED (heart beat, `G_T`) -/
  green : Bool
  /-- yellow LED (`Y_T`) -/
  yellow : Bool
  /-- red LED (`R_T`) -/
  red : Bool
deriving DecidableEq

/-- What one pass of the `while(1)` loop receives from outside: the buffer and
counter filled by `getReceivedMessage`, and the number of timer interrupts
delivered before each clock access of the pass. -/
structure Input where
  /-- The buffer `msg` after `getReceivedMessage`. -/
  msg : List Nat
  /-- The counter `newMsgCnt` after `getReceivedMessage`. -/
  newMsgCnt : Nat
  /-- interrupts before the message is processed -/
  irqDispatch : Nat
  /-- interrupts between the read and the write of `updateClock` -/
  irqAdjust : Nat
  /-- interrupts before the scheduled-hit check -/
  irqCheck : Nat
  /-- interrupts before the retract block -/
  irqRetract : Nat
  /-- interrupts before the second clock read of the retract block -/
  irqRetract2 : Nat
  /-- interrupts before the clock read of the play block -/
  irqPlay : Nat
deriving DecidableEq

/-- State at startup: the static initialisers of `main.c`, LEDs switched off,
the queue created empty. -/
def initState : State :=
  { virtualClock := 0, playNow := 0, fifo := [], oldMsgCnt := 0,
    retractTime := 0, stickStatus := StickStatus.READY, sent := [], drum := [],
    green := false, yellow := false, red := false }

/-! ## Schedule queue (`fifo_utils.h`) -/

/-- Modelled from the spec: `peekFifo` of `fifo_utils.h` (absent). The spec:
"returns the earliest pending tick without removing it; returns empty when the
queue has no entries". `none` stands for a non-zero `failure`. -/
def peekFifo (q : List Nat) : Option Nat := q.head?

/-- Modelled from the spec: `readFifo` of `fifo_utils.h` (absent). The spec:
"removes and returns the earliest pending tick". -/
def readFifo (q : List Nat) : Option Nat × List Nat := (q.head?, q.tail)

/-- Modelled from the spec: `writeFifo` of `fifo_utils.h` (absent). The spec:
"appends to the tail; fails with QueueFull if the buffer is at capacity"; the
rejected insert leaves the queue as it was. The flag is `true` on failure. -/
def writeFifo (capacity : Nat) (tick : Nat) (q : List Nat) : Bool × List Nat :=
  if q.length < capacity then (false, q ++ [tick]) else (true, q)

/-- Modelled from the spec: `clearFifo` of `fifo_utils.h` (absent). The spec:
"empties the queue unconditionally". -/
def clearFifo (_q : List Nat) : List Nat := []

/-! ## Virtual clock -/

/-- The function `getVirtualClock`: the masked read of `virtualClock`. -/
def getVirtualClock (s : State) : Nat := s.virtualClock

/-- The function `setVirtualClock`: the masked write of `virtualClock`. -/
def setVirtualClock (value : Nat) (s : State) : State :=
  { s with virtualClock := value }

/-- The interrupt handler `Timer1A0ISR`: `virtualClock++` on 32 bits, then the
heart beat every 32 ticks. -/
def Timer1A0ISR (s : State) : State :=
  let s1 := { s with virtualClock := (s.virtualClock + 1) % 4294967296 }
  if s1.virtualClock % 32 = 0 then { s1 with green := !s1.green } else s1

/-- Delivery of `n` timer interrupts in a row. -/
def ticks : Nat → State → State
  | 0, s => s
  | n + 1, s => ticks n (Timer1A0ISR s)

/-! ## Clock adjustment -/

/-- Condition of the loop of `updateClock`: `!failure && (clk < newValue)`,
where `failure` and `clk` come from the latest `peekFifo`. -/
def skipCond (newValue : Nat) (s : State) : Bool :=
  match peekFifo s.fifo with
  | some clk => decide (clk < newValue)
  | none => false

/-- Body of the loop of `updateClock`: `playNow = 1; readFifo(&clk);` (the
closing `peekFifo` is read again by `skipCond`). -/
def skipBody (s : State) : State :=
  let s1 := { s with playNow := 1 }
  { s1 with fifo := (readFifo s1.fifo).2 }

/-- The `while` loop of `updateClock`. It terminates because every pass pops
one entry of a non-empty queue. -/
def skipLoop (newValue : Nat) (s : State) : State :=
  if skipCond newValue s = true then skipLoop newValue (skipBody s) else s
termination_by s.fifo.length
decreasing_by
  rename_i h
  cases hq : s.fifo with
  | nil => simp [skipCond, peekFifo, hq] at h
  | cons a t => simp [skipBody, readFifo, hq]

/-- The function `updateClock(adjustment)`; `irq` timer interrupts arrive between the read
of `oldValue` and the final `setVirtualClock`. -/
def updateClock (adjustment irq : Nat) (s : State) : State :=
  let oldValue := getVirtualClock s
  let newValue := (oldValue + adjustment) % 4294967296
  let s1 := ticks irq s
  let s2 := if newValue > oldValue then skipLoop newValue s1 else s1
  setVirtualClock newValue s2

/-! ## Message frames -/

/-- Read of `msg[i]`, a `uint8_t`. -/
def byteAt (msg : List Nat) (i : Nat) : Nat := msg.getD i 0 % 256

/-- Load `*((uint32_t*)(&msg[off]))` on the little-endian MSP430. -/
def load32 (msg : List Nat) (off : Nat) : Nat :=
  byteAt msg off + 256 * byteAt msg (off + 1) + 65536 * byteAt msg (off + 2)
    + 16777216 * byteAt msg (off + 3)

/-- The four bytes written by a 32-bit store on the little-endian MSP430. -/
def store32 (v : Nat) : List Nat :=
  [v % 256, v / 256 % 256, v / 65536 % 256, v / 16777216 % 256]

/-- The buffer `returnMsg` built in the `CLKREQ` branch. -/
def clkreqReply (cfg : Config) (clock : Nat) : List Nat :=
  [(cfg.CLKREQ ||| cfg.ACK) % 256, cfg.MY_ID % 256] ++ store32 clock

/-! ## The control loop of `main_process` -/

/-- The `if / else if` chain on `msg[0]` (lines 67-117). -/
def dispatchMessage (cfg : Config) (irq : Nat) (msg : List Nat) (s : State) : State :=
  if byteAt msg 0 = cfg.CLKREQ then
    { s with sent := s.sent ++ [(clkreqReply cfg (getVirtualClock s), 15)] }
  else if byteAt msg 0 = cfg.SETCLK then
    updateClock (load32 msg 2) irq s
  else if byteAt msg 0 = cfg.SCHDL then
    if byteAt msg 1 &&& cfg.MY_ID ≠ 0 then
      { s with fifo := (writeFifo cfg.FIFO_SIZE (load32 msg 2) s.fifo).2 }
    else s
  else if byteAt msg 0 = cfg.CANCEL then
    { s with fifo := clearFifo s.fifo }
  else if byteAt msg 0 = 0 then
    if byteAt msg 1 &&& cfg.MY_ID ≠ 0 then { s with playNow := 1 } else s
  else s

/-- Lines 62-118: a message is processed when the counter has moved. -/
def processMessage (cfg : Config) (irq : Nat) (msg : List Nat) (newMsgCnt : Nat)
    (s : State) : State :=
  if s.oldMsgCnt ≠ newMsgCnt then
    dispatchMessage cfg irq msg { s with yellow := !s.yellow, oldMsgCnt := newMsgCnt }
  else s

/-- Lines 120-127: the check for a scheduled hit. -/
def checkScheduled (s : State) : State :=
  match peekFifo s.fifo with
  | some clk =>
    if clk = getVirtualClock s then
      let s1 := { s with playNow := 1 }
      { s1 with fifo := (readFifo s1.fifo).2 }
    else s
  | none => s

/-- Lines 130-158: the retract block; `irq` timer interrupts arrive before the
second clock read of the `SINGLE_STICK` variant. -/
def retractStick (cfg : Config) (irq : Nat) (s : State) : State :=
  if cfg.SINGLE_STICK = true then
    if getVirtualClock s = s.retractTime then
      match s.stickStatus with
      | StickStatus.HIT =>
        let s1 := { s with drum := s.drum ++ [0], stickStatus := StickStatus.RETRACTED }
        let s2 := ticks irq s1
        { s2 with retractTime := (getVirtualClock s2 + cfg.COOLDOWN * 64) % 4294967296 }
      | StickStatus.RETRACTED => { s with stickStatus := StickStatus.READY }
      | StickStatus.READY => s
    else s
  else
    if getVirtualClock s = s.retractTime then
      match s.stickStatus with
      | StickStatus.HIT => { s with stickStatus := StickStatus.READY }
      | _ => s
    else s

/-- Lines 159-171: the play block; `irq` timer interrupts arrive before its
clock read. -/
def playDrum (cfg : Config) (irq : Nat) (s : State) : State :=
  if s.playNow = 1 then
    let s1 := { s with red := !s.red, playNow := 0 }
    match s1.stickStatus with
    | StickStatus.READY =>
      let s2 := { s1 with drum := s1.drum ++ [1], stickStatus := StickStatus.HIT }
      let s3 := ticks irq s2
      { s3 with retractTime := (getVirtualClock s3 + cfg.COOLDOWN * 64) % 4294967296 }
    | _ => s1
  else s

/-- One pass of the `while(1)` loop (lines 56-172). -/
def mainLoopBody (cfg : Config) (inp : Input) (s : State) : State :=
  let s1 := processMessage cfg inp.irqAdjust inp.msg inp.newMsgCnt (ticks inp.irqDispatch s)
  let s2 := checkScheduled (ticks inp.irqCheck s1)
  let s3 := retractStick cfg inp.irqRetract2 (ticks inp.irqRetract s2)
  playDrum cfg inp.irqPlay s3

/-- Consecutive passes of the loop, one per input, oldest first. -/
def runLoop (cfg : Config) : List Input → State → State
  | [], s => s
  | inp :: rest, s => runLoop cfg rest (mainLoopBody cfg inp s)

/-! ## Concrete data for the worked examples -/

/-- Whether the four opcodes of `header.h` are pairwise distinct and non-zero,
so that every branch of the dispatch chain can be reached. -/
def opcodesDistinct (cfg : Config) : Bool :=
  decide (cfg.CLKREQ ≠ cfg.SETCLK ∧ cfg.CLKREQ ≠ cfg.SCHDL ∧ cfg.CLKREQ ≠ cfg.CANCEL ∧
    cfg.SETCLK ≠ cfg.SCHDL ∧ cfg.SETCLK ≠ cfg.CANCEL ∧ cfg.SCHDL ≠ cfg.CANCEL ∧
    cfg.CLKREQ ≠ 0 ∧ cfg.SETCLK ≠ 0 ∧ cfg.SCHDL ≠ 0 ∧ cfg.CANCEL ≠ 0)

/-- Example constants (illustrative values for the absent `header.h`): node
with identity bit `0x1`, `SINGLE_STICK` not defined, a queue of four entries
and a cooldown of `1 * 64` ticks. -/
def exCfg : Config :=
  { CLKREQ := 1, SETCLK := 2, SCHDL := 3, CANCEL := 4, ACK := 128, MY_ID := 1,
    COOLDOWN := 1, SINGLE_STICK := false, FIFO_SIZE := 4 }

/-- The example constants with `SINGLE_STICK` defined. -/
def exCfgSingle : Config := { exCfg with SINGLE_STICK := true }

/-- A six-byte frame: opcode, target mask, little-endian payload. -/
def mkFrame (op mask payload : Nat) : List Nat := [op, mask] ++ store32 payload

/-- A loop pass that receives `msg` with counter `cnt` and no timer interrupt. -/
def quietPass (msg : List Nat) (cnt : Nat) : Input :=
  { msg := msg, newMsgCnt := cnt, irqDispatch := 0, irqAdjust := 0, irqCheck := 0,
    irqRetract := 0, irqRetract2 := 0, irqPlay := 0 }

/-- A loop pass that receives `msg` with counter `cnt` after `n` timer
interrupts, and none later in the pass. -/
def latePass (n : Nat) (msg : List Nat) (cnt : Nat) : Input :=
  { quietPass msg cnt with irqDispatch := n }

/-- Startup state with the queue `[5, 10, 20]`. -/
def exQueued : State := { initState with fifo := [5, 10, 20] }

/-- Number of calls `hitDrum(1)` in a trace of `hitDrum` calls. -/
def hitCount (drum : List Nat) : Nat := drum.count 1

/-- The state reached from startup by three passes that each receive a
`SCHDL` frame for this node: ticks `5`, `10`, `20`. -/
def exScheduled : State :=
  runLoop exCfg [quietPass (mkFrame 3 1 5) 1, quietPass (mkFrame 3 1 10) 2,
    quietPass (mkFrame 3 1 20) 3] initState

/-- The pass after `exScheduled`: a `SETCLK` frame with adjustment `15`. -/
def exAdjusted : State :=
  mainLoopBody exCfg (quietPass (mkFrame 2 0 15) 4) exScheduled

/-- The state reached from startup by one pass that receives a fire-now frame
for this node at clock `0`: the stick is engaged at `T = 0`. -/
def exEngaged : State :=
  mainLoopBody exCfg (quietPass (mkFrame 0 1 0) 1) initState

/-- The state `exEngaged` for a node built with `SINGLE_STICK`. -/
def exEngagedSingle : State :=
  mainLoopBody exCfgSingle (quietPass (mkFrame 0 1 0) 1) initState

/-- The pass after `exEngaged`: a `SETCLK` frame with adjustment `100`, which
moves the clock past the retract time `64`. -/
def exJumped : State :=
  mainLoopBody exCfg (quietPass (mkFrame 2 0 100) 2) exEngaged

/-- The stick engaged at `T = 0`, seen ten ticks later with a fire request
pending. -/
def exCooling : State :=
  { exEngaged with virtualClock := 10, playNow := 1 }

/-- The state reached from startup by four passes that each receive a `SCHDL`
frame for this node: the queue of capacity four is full. -/
def exFull : State :=
  runLoop exCfg [quietPass (mkFrame 3 1 5) 1, quietPass (mkFrame 3 1 10) 2,
    quietPass (mkFrame 3 1 20) 3, quietPass (mkFrame 3 1 30) 4] initState

/-- The state of a pass just before its scheduled-hit check reads the queue
(lines 56-119, then the interrupts that precede the check). -/
def beforeCheck (cfg : Config) (inp : Input) (s : State) : State :=
  ticks inp.irqCheck
    (processMessage cfg inp.irqAdjust inp.msg inp.newMsgCnt (ticks inp.irqDispatch s))

/-- The state of a pass just before its play block (lines 56-158). -/
def beforePlay (cfg : Config) (inp : Input) (s : State) : State :=
  retractStick cfg inp.irqRetract2 (ticks inp.irqRetract (checkScheduled (beforeCheck cfg inp s)))

/-- Startup state with a fire request pending. -/
def exPending : State := { initState with playNow := 1 }

/-- The stick engaged at `T = 0` (retract time `64`), seen at clock `64`. -/
def exDue : State := { exEngaged with virtualClock := 64 }

/-- The state `exDue` for a node built with `SINGLE_STICK`. -/
def exDueSingle : State := { exEngagedSingle with virtualClock := 64 }

/-- The queue `[5, 10, 20]` at clock `100`. -/
def exLate : State := { exQueued with virtualClock := 100 }

/-- Startup state with the unsorted queue `[20, 5]`. -/
def exUnsorted : State := { initState with fifo := [20, 5] }

/-- The state reached from startup by two passes that each receive a `SCHDL`
frame for this node: ticks `5` and `7`. -/
def exTwoQueued : State :=
  runLoop exCfg [quietPass (mkFrame 3 1 5) 1, quietPass (mkFrame 3 1 7) 2] initState

/-! ## Timer interrupts -/

theorem Timer1A0ISR_frame (s : State) :
    ∃ vc g, Timer1A0ISR s = { s with virtualClock := vc, green := g } := by
  unfold Timer1A0ISR
  dsimp only
  split
  · exact ⟨_, _, rfl⟩
  · exact ⟨_, s.green, rfl⟩

theorem ticks_frame_ex (n : Nat) (s : State) :
    ∃ vc g, ticks n s = { s with virtualClock := vc, green := g } := by
  induction n generalizing s with
  | zero => exact ⟨s.virtualClock, s.green, rfl⟩
  | succ n ih =>
    obtain ⟨vc, g, h⟩ := ih (Timer1A0ISR s)
    obtain ⟨v, g1, hI⟩ := Timer1A0ISR_frame s
    refine ⟨vc, g, ?_⟩
    rw [ticks, h, hI]

theorem ticks_frame (n : Nat) (s : State) :
    ticks n s = { s with virtualClock := (ticks n s).virtualClock,
                         green := (ticks n s).green } := by
  obtain ⟨vc, g, h⟩ := ticks_frame_ex n s
  rw [h]

theorem ticks_fifo (n : Nat) (s : State) : (ticks n s).fifo = s.fifo := by
  rw [ticks_frame]

theorem ticks_playNow (n : Nat) (s : State) : (ticks n s).playNow = s.playNow := by
  rw [ticks_frame]

theorem ticks_stickStatus (n : Nat) (s : State) :
    (ticks n s).stickStatus = s.stickStatus := by
  rw [ticks_frame]

theorem ticks_retractTime (n : Nat) (s : State) :
    (ticks n s).retractTime = s.retractTime := by
  rw [ticks_frame]

theorem ticks_drum (n : Nat) (s : State) : (ticks n s).drum = s.drum := by
  rw [ticks_frame]

theorem ticks_sent (n : Nat) (s : State) : (ticks n s).sent = s.sent := by
  rw [ticks_frame]

theorem Timer1A0ISR_virtualClock (s : State) :
    (Timer1A0ISR s).virtualClock = (s.virtualClock + 1) % 4294967296 := by
  unfold Timer1A0ISR
  dsimp only
  split <;> rfl

theorem ticks_virtualClock (n : Nat) (s : State) (h : s.virtualClock < 4294967296) :
    (ticks n s).virtualClock = (s.virtualClock + n) % 4294967296 := by
  induction n generalizing s with
  | zero => simp [ticks, Nat.mod_eq_of_lt h]
  | succ n ih =>
    rw [ticks, ih (Timer1A0ISR s) (by rw [Timer1A0ISR_virtualClock]; omega),
      Timer1A0ISR_virtualClock]
    omega

/-! ## The catch-up loop -/

theorem skipLoop_eq (nv : Nat) : ∀ (q : List Nat) (s : State), s.fifo = q →
    skipLoop nv s = { s with
      playNow := if skipCond nv s = true then 1 else s.playNow,
      fifo := q.dropWhile (fun t => decide (t < nv)) } := by
  intro q
  induction q with
  | nil =>
    intro s h
    have hc : skipCond nv s = false := by simp [skipCond, peekFifo, h]
    rw [skipLoop]
    cases s
    simp_all
  | cons a t ih =>
    intro s h
    rw [skipLoop]
    by_cases ha : a < nv
    · have hc : skipCond nv s = true := by simp [skipCond, peekFifo, h, ha]
      have hb : (skipBody s).fifo = t := by simp [skipBody, readFifo, h]
      rw [if_pos hc, ih (skipBody s) hb]
      simp only [hc, if_true, List.dropWhile_cons, ha, decide_True]
      cases s
      simp [skipBody]
    · have hc : skipCond nv s = false := by simp [skipCond, peekFifo, h, ha]
      cases s
      simp_all [List.dropWhile_cons]

theorem skipLoop_fifo (nv : Nat) (s : State) :
    (skipLoop nv s).fifo = s.fifo.dropWhile (fun t => decide (t < nv)) := by
  rw [skipLoop_eq nv s.fifo s rfl]

theorem skipLoop_playNow (nv : Nat) (s : State) :
    (skipLoop nv s).playNow = if skipCond nv s = true then 1 else s.playNow := by
  rw [skipLoop_eq nv s.fifo s rfl]

theorem skipLoop_virtualClock (nv : Nat) (s : State) :
    (skipLoop nv s).virtualClock = s.virtualClock := by
  rw [skipLoop_eq nv s.fifo s rfl]

theorem updateClock_virtualClock (d irq : Nat) (s : State) :
    (updateClock d irq s).virtualClock = (s.virtualClock + d) % 4294967296 := by
  simp [updateClock, setVirtualClock, getVirtualClock]

theorem updateClock_fifo_forward (d irq : Nat) (s : State)
    (h : s.virtualClock < (s.virtualClock + d) % 4294967296) :
    (updateClock d irq s).fifo
      = s.fifo.dropWhile (fun t => decide (t < (s.virtualClock + d) % 4294967296)) := by
  simp [updateClock, setVirtualClock, getVirtualClock, h, skipLoop_fifo, ticks_fifo]

/-! ## Clock adjustment: claims C1-C3 -/

/-- C1. A forward adjustment (`newValue = (c + d) mod 2^32` strictly greater
than the clock `c` read on entry) leaves the clock equal to `newValue` and the
queue equal to the old queue without its longest leading run of entries whose
tick is below `newValue`; this holds for every number of timer interrupts
delivered between the read and the write. -/
theorem C1_updateClock_forward (d irq : Nat) (s : State)
    (h : s.virtualClock < (s.virtualClock + d) % 4294967296) :
    (updateClock d irq s).virtualClock = (s.virtualClock + d) % 4294967296 ∧
    (updateClock d irq s).fifo
      = s.fifo.dropWhile (fun t => decide (t < (s.virtualClock + d) % 4294967296)) :=
  ⟨updateClock_virtualClock d irq s, updateClock_fifo_forward d irq s h⟩

/-- Witness of C1: queue `[5, 10, 20]`, clock `0`, adjustment `15` give clock
`15` and queue `[20]`. -/
theorem C1_updateClock_forward_witness :
    exQueued.virtualClock < (exQueued.virtualClock + 15) % 4294967296 ∧
    (updateClock 15 0 exQueued).virtualClock = 15 ∧
    (updateClock 15 0 exQueued).fifo = [20] :=
  ⟨by decide, C1_updateClock_forward 15 0 exQueued (by decide)⟩

/-- C3. After `updateClock(d)` the virtual clock is `(c + d) mod 2^32` for the
clock `c` read on entry, for every delta, queue and number of interrupts
between the read and the write, whether or not entries were skipped. -/
theorem C3_updateClock_commits (d irq : Nat) (s : State) :
    getVirtualClock (updateClock d irq s) = (getVirtualClock s + d) % 4294967296 :=
  updateClock_virtualClock d irq s

/-! ## Timer interrupt: claim C4 -/

/-- C4. From a clock value of `0`, after `n` runs of the timer interrupt
handler with no other write of the clock, `getVirtualClock` returns
`n mod 2^32`. -/
theorem C4_ticks_from_zero (n : Nat) (s : State) (h : s.virtualClock = 0) :
    getVirtualClock (ticks n s) = n % 4294967296 := by
  unfold getVirtualClock
  rw [ticks_virtualClock n s (by omega), h, Nat.zero_add]

/-- Witness of C4: three interrupts after startup give clock `3`. -/
theorem C4_ticks_from_zero_witness :
    initState.virtualClock = 0 ∧ getVirtualClock (ticks 3 initState) = 3 % 4294967296 :=
  ⟨rfl, C4_ticks_from_zero 3 initState rfl⟩

/-! ## Catch-up requests: claim C2 -/

theorem dropWhile_eq_drop_takeWhile (p : Nat → Bool) (l : List Nat) :
    l.dropWhile p = l.drop (l.takeWhile p).length := by
  induction l with
  | nil => rfl
  | cons a t ih =>
    by_cases h : p a = true
    · simp [List.dropWhile_cons, List.takeWhile_cons, h, ih]
    · simp [List.dropWhile_cons, List.takeWhile_cons, h]

theorem skipCond_of_takeWhile (nv : Nat) (s : State)
    (hk : 1 ≤ (s.fifo.takeWhile (fun t => decide (t < nv))).length) :
    skipCond nv s = true := by
  unfold skipCond peekFifo
  cases hq : s.fifo with
  | nil => simp [hq] at hk
  | cons a t =>
    by_cases ha : a < nv
    · simp [ha]
    · simp [hq, List.takeWhile_cons, ha] at hk

theorem updateClock_playNow_forward (d irq : Nat) (s : State)
    (h : s.virtualClock < (s.virtualClock + d) % 4294967296) :
    (updateClock d irq s).playNow
      = if skipCond ((s.virtualClock + d) % 4294967296) (ticks irq s) = true then 1
        else s.playNow := by
  simp [updateClock, setVirtualClock, getVirtualClock, h, skipLoop_playNow, ticks_playNow]

theorem skipCond_ticks (nv irq : Nat) (s : State) :
    skipCond nv (ticks irq s) = skipCond nv s := by
  unfold skipCond
  rw [ticks_fifo]

theorem playDrum_playNow (cfg : Config) (irq : Nat) (s : State) (h : s.playNow = 1) :
    (playDrum cfg irq s).playNow = 0 := by
  unfold playDrum
  rw [if_pos h]
  cases hs : s.stickStatus <;> simp [hs, ticks_playNow]

theorem playDrum_drum (cfg : Config) (irq : Nat) (s : State) (h : s.playNow = 1) :
    (playDrum cfg irq s).drum
      = if s.stickStatus = StickStatus.READY then s.drum ++ [1] else s.drum := by
  unfold playDrum
  rw [if_pos h]
  cases hs : s.stickStatus <;> simp [hs, ticks_drum]

/-- C2, counterexample. Queue `[5, 10, 20]`, clock `0`, `SETCLK` with
adjustment `15`: the pass skips two entries (the queue becomes `[20]`, the
clock `15`) but calls `hitDrum(1)` once, not twice. -/
theorem C2_counterexample :
    exScheduled.fifo = [5, 10, 20] ∧ exScheduled.virtualClock = 0 ∧
    exScheduled.drum = [] ∧ exAdjusted.virtualClock = 15 ∧ exAdjusted.fifo = [20] ∧
    exAdjusted.drum = [1] ∧
    ¬ (hitCount exAdjusted.drum - hitCount exScheduled.drum
        = exScheduled.fifo.length - exAdjusted.fifo.length) := by
  have h1 : exScheduled =
      { initState with
        fifo := [5, 10, 20], oldMsgCnt := 3, yellow := true } := by decide
  have h2 : exAdjusted =
      { initState with
        virtualClock := 15, fifo := [20], oldMsgCnt := 4, retractTime := 79,
        stickStatus := StickStatus.HIT, drum := [1], red := true } := by
    rw [exAdjusted, h1]
    simp [mainLoopBody, processMessage, dispatchMessage, checkScheduled, retractStick,
      playDrum, updateClock, skipLoop_eq _ _ _ rfl, skipCond, peekFifo, readFifo, initState,
      ticks, getVirtualClock, setVirtualClock, exCfg, quietPass, mkFrame, store32, byteAt,
      load32, List.dropWhile]
  rw [h2, h1]
  decide

/-- C2, amended. On a forward adjustment that skips `k >= 1` leading entries,
the `k` entries are removed and every one of them sets the same one-bit flag
`playNow`, so that afterwards a single request is pending (`playNow = 1`); the
play block serves a pending request by clearing the flag and calling
`hitDrum(1)` once if the stick is `READY` and not at all otherwise. -/
theorem C2_catchup_single_request (cfg : Config) (d irq irqP : Nat) (s : State)
    (h : s.virtualClock < (s.virtualClock + d) % 4294967296)
    (hk : 1 ≤ (s.fifo.takeWhile
      (fun t => decide (t < (s.virtualClock + d) % 4294967296))).length) :
    (updateClock d irq s).fifo = s.fifo.drop (s.fifo.takeWhile
      (fun t => decide (t < (s.virtualClock + d) % 4294967296))).length ∧
    (updateClock d irq s).playNow = 1 ∧
    ∀ s2 : State, s2.playNow = 1 →
      (playDrum cfg irqP s2).playNow = 0 ∧
      hitCount (playDrum cfg irqP s2).drum
        = hitCount s2.drum + (if s2.stickStatus = StickStatus.READY then 1 else 0) := by
  refine ⟨?_, ?_, ?_⟩
  · rw [updateClock_fifo_forward d irq s h, dropWhile_eq_drop_takeWhile]
  · rw [updateClock_playNow_forward d irq s h, skipCond_ticks,
      skipCond_of_takeWhile _ s hk, if_pos rfl]
  · intro s2 h2
    refine ⟨playDrum_playNow cfg irqP s2 h2, ?_⟩
    rw [playDrum_drum cfg irqP s2 h2]
    by_cases hr : s2.stickStatus = StickStatus.READY
    · simp [hr, hitCount]
    · simp [hr]

/-- Witness of the amended C2: queue `[5, 10, 20]`, clock `0`, adjustment `15`
skip two entries and leave one pending request. -/
theorem C2_catchup_single_request_witness :
    (updateClock 15 0 exQueued).fifo = [20] ∧ (updateClock 15 0 exQueued).playNow = 1 :=
  ⟨(C2_catchup_single_request exCfg 15 0 0 exQueued (by decide) (by decide)).1,
   (C2_catchup_single_request exCfg 15 0 0 exQueued (by decide) (by decide)).2.1⟩

/-! ## Cooldown: claim C5 -/

theorem ticks_virtualClock_congr (n : Nat) (s1 s2 : State)
    (h : s1.virtualClock = s2.virtualClock) :
    (ticks n s1).virtualClock = (ticks n s2).virtualClock := by
  induction n generalizing s1 s2 with
  | zero => exact h
  | succ n ih =>
    rw [ticks, ticks]
    apply ih
    rw [Timer1A0ISR_virtualClock, Timer1A0ISR_virtualClock, h]

theorem retractStick_idle (cfg : Config) (irq : Nat) (s : State)
    (h : s.virtualClock ≠ s.retractTime) : retractStick cfg irq s = s := by
  unfold retractStick getVirtualClock
  simp [h]

theorem playDrum_rejects (cfg : Config) (irq : Nat) (s : State) (hReq : s.playNow = 1)
    (hs : s.stickStatus ≠ StickStatus.READY) :
    playDrum cfg irq s = { s with red := !s.red, playNow := 0 } := by
  unfold playDrum
  rw [if_pos hReq]
  cases h : s.stickStatus <;> simp_all

set_option maxRecDepth 8192 in
/-- C5, counterexample. (1) Built with `SINGLE_STICK`, the stick engaged at
`T = 0` with cooldown `64`: a fire-now frame processed at clock `64 = T + C`
is rejected, the pass retracts the stick (`hitDrum(0)`) and leaves it
`RETRACTED`. (2) Built without `SINGLE_STICK`, after `SETCLK` has moved the
clock from `0` to `100`, past the retract time `64`: a fire-now frame processed
at clock `100 >= T + C` is rejected and the stick stays `HIT`. -/
theorem C5_counterexample :
    (exEngagedSingle.stickStatus = StickStatus.HIT ∧ exEngagedSingle.retractTime = 0 + 1 * 64 ∧
      exEngagedSingle.drum = [1] ∧
      (mainLoopBody exCfgSingle (latePass 64 (mkFrame 0 1 0) 2) exEngagedSingle).virtualClock
        = 64 ∧
      (mainLoopBody exCfgSingle (latePass 64 (mkFrame 0 1 0) 2) exEngagedSingle).drum
        = [1, 0] ∧
      (mainLoopBody exCfgSingle (latePass 64 (mkFrame 0 1 0) 2) exEngagedSingle).stickStatus
        = StickStatus.RETRACTED) ∧
    (exJumped.stickStatus = StickStatus.HIT ∧ exJumped.retractTime = 0 + 1 * 64 ∧
      exJumped.virtualClock = 100 ∧ exJumped.drum = [1] ∧
      (mainLoopBody exCfg (quietPass (mkFrame 0 1 0) 3) exJumped).virtualClock = 100 ∧
      (mainLoopBody exCfg (quietPass (mkFrame 0 1 0) 3) exJumped).drum = [1] ∧
      (mainLoopBody exCfg (quietPass (mkFrame 0 1 0) 3) exJumped).stickStatus
        = StickStatus.HIT) := by
  have h1 : exEngaged =
      { initState with
        oldMsgCnt := 1, retractTime := 64, stickStatus := StickStatus.HIT, drum := [1],
        yellow := true, red := true } := by decide
  have h2 : exJumped =
      { initState with
        virtualClock := 100, oldMsgCnt := 2, retractTime := 64,
        stickStatus := StickStatus.HIT, drum := [1], red := true } := by
    rw [exJumped, h1]
    simp [mainLoopBody, processMessage, dispatchMessage, checkScheduled, retractStick,
      playDrum, updateClock, skipLoop_eq _ _ _ rfl, skipCond, peekFifo, readFifo, initState,
      ticks, getVirtualClock, setVirtualClock, exCfg, quietPass, mkFrame, store32, byteAt,
      load32, List.dropWhile]
  refine ⟨by decide, ?_⟩
  rw [h2]
  decide

/-- C5, amended. Let the stick be engaged (`HIT`) with
`retractTime = (T + C) mod 2^32`, `C = COOLDOWN*64`, and a fire request be
pending when the retract and play blocks run. (a) At a clock value `j < C`
ticks after `T` (modulo `2^32`, `C < 2^32`) the request is rejected: only the
flag is cleared and the red LED toggled, no `hitDrum`, stick state and
`retractTime` unchanged. (b) When the clock read by the retract check equals
`retractTime` and `SINGLE_STICK` is not defined, the request is accepted:
`hitDrum(1)`, state `HIT`, new `retractTime` = clock read by the play block
plus `C`. (c) With `SINGLE_STICK` that same pass retracts the stick
(`hitDrum(0)`, state `RETRACTED`) and does not call `hitDrum(1)`. -/
theorem C5_cooldown_amended (cfg : Config) (T irqR irqP : Nat) (s : State)
    (hHit : s.stickStatus = StickStatus.HIT)
    (hRT : s.retractTime = (T + cfg.COOLDOWN * 64) % 4294967296)
    (hReq : s.playNow = 1) :
    (∀ j : Nat, j < cfg.COOLDOWN * 64 → cfg.COOLDOWN * 64 < 4294967296 →
      s.virtualClock = (T + j) % 4294967296 →
      playDrum cfg irqP (retractStick cfg irqR s) = { s with red := !s.red, playNow := 0 }) ∧
    (s.virtualClock = s.retractTime → cfg.SINGLE_STICK = false →
      (playDrum cfg irqP (retractStick cfg irqR s)).drum = s.drum ++ [1] ∧
      (playDrum cfg irqP (retractStick cfg irqR s)).stickStatus = StickStatus.HIT ∧
      (playDrum cfg irqP (retractStick cfg irqR s)).retractTime
        = ((ticks irqP s).virtualClock + cfg.COOLDOWN * 64) % 4294967296 ∧
      (playDrum cfg irqP (retractStick cfg irqR s)).playNow = 0) ∧
    (s.virtualClock = s.retractTime → cfg.SINGLE_STICK = true →
      (playDrum cfg irqP (retractStick cfg irqR s)).drum = s.drum ++ [0] ∧
      (playDrum cfg irqP (retractStick cfg irqR s)).stickStatus = StickStatus.RETRACTED ∧
      (playDrum cfg irqP (retractStick cfg irqR s)).playNow = 0) := by
  refine ⟨?_, ?_, ?_⟩
  · intro j hj hC hv
    have hne : s.virtualClock ≠ s.retractTime := by
      rw [hv, hRT]
      omega
    rw [retractStick_idle cfg irqR s hne]
    exact playDrum_rejects cfg irqP s hReq (by rw [hHit]; decide)
  · intro hv hS
    have hr : retractStick cfg irqR s = { s with stickStatus := StickStatus.READY } := by
      unfold retractStick getVirtualClock
      simp [hv, hS, hHit]
    rw [hr]
    have hc : (ticks irqP
        { s with
          stickStatus := StickStatus.HIT, drum := s.drum ++ [1], red := !s.red,
          playNow := 0 }).virtualClock = (ticks irqP s).virtualClock :=
      ticks_virtualClock_congr irqP _ _ rfl
    simp [playDrum, hReq, getVirtualClock, ticks_drum, ticks_stickStatus, ticks_playNow, hc]
  · intro hv hS
    unfold retractStick getVirtualClock
    simp [hv, hS, hHit, playDrum, hReq, ticks_playNow, ticks_stickStatus, ticks_drum]

/-- Witness of the amended C5: the stick engaged at `T = 0` with cooldown `64`
rejects a request processed at clock `10`. -/
theorem C5_cooldown_amended_witness :
    exCooling.stickStatus = StickStatus.HIT ∧
    exCooling.retractTime = (0 + exCfg.COOLDOWN * 64) % 4294967296 ∧
    exCooling.playNow = 1 ∧
    playDrum exCfg 0 (retractStick exCfg 0 exCooling)
      = { exCooling with red := !exCooling.red, playNow := 0 } :=
  ⟨by decide, by decide, by decide,
   (C5_cooldown_amended exCfg 0 0 0 exCooling (by decide) (by decide) (by decide)).1 10
     (by decide) (by decide) (by decide)⟩

/-! ## Message dispatch: claims C6-C8 -/

theorem opcodesDistinct_iff (cfg : Config) :
    opcodesDistinct cfg = true ↔
      (cfg.CLKREQ ≠ cfg.SETCLK ∧ cfg.CLKREQ ≠ cfg.SCHDL ∧ cfg.CLKREQ ≠ cfg.CANCEL ∧
        cfg.SETCLK ≠ cfg.SCHDL ∧ cfg.SETCLK ≠ cfg.CANCEL ∧ cfg.SCHDL ≠ cfg.CANCEL ∧
        cfg.CLKREQ ≠ 0 ∧ cfg.SETCLK ≠ 0 ∧ cfg.SCHDL ≠ 0 ∧ cfg.CANCEL ≠ 0) := by
  unfold opcodesDistinct
  exact decide_eq_true_iff

theorem dispatchMessage_CLKREQ (cfg : Config) (irq : Nat) (msg : List Nat) (s : State)
    (h : byteAt msg 0 = cfg.CLKREQ) :
    dispatchMessage cfg irq msg s
      = { s with sent := s.sent ++ [(clkreqReply cfg (getVirtualClock s), 15)] } := by
  unfold dispatchMessage
  rw [if_pos h]

theorem dispatchMessage_SETCLK (cfg : Config) (irq : Nat) (msg : List Nat) (s : State)
    (hd : opcodesDistinct cfg = true) (h : byteAt msg 0 = cfg.SETCLK) :
    dispatchMessage cfg irq msg s = updateClock (load32 msg 2) irq s := by
  obtain ⟨h1, -⟩ := (opcodesDistinct_iff cfg).1 hd
  unfold dispatchMessage
  rw [if_neg (by rw [h]; exact fun e => h1 e.symm), if_pos h]

theorem dispatchMessage_SCHDL (cfg : Config) (irq : Nat) (msg : List Nat) (s : State)
    (hd : opcodesDistinct cfg = true) (h : byteAt msg 0 = cfg.SCHDL) :
    dispatchMessage cfg irq msg s
      = if byteAt msg 1 &&& cfg.MY_ID ≠ 0 then
          { s with fifo := (writeFifo cfg.FIFO_SIZE (load32 msg 2) s.fifo).2 }
        else s := by
  obtain ⟨-, h2, -, h4, -⟩ := (opcodesDistinct_iff cfg).1 hd
  unfold dispatchMessage
  rw [if_neg (by rw [h]; exact fun e => h2 e.symm),
    if_neg (by rw [h]; exact fun e => h4 e.symm), if_pos h]

theorem dispatchMessage_CANCEL (cfg : Config) (irq : Nat) (msg : List Nat) (s : State)
    (hd : opcodesDistinct cfg = true) (h : byteAt msg 0 = cfg.CANCEL) :
    dispatchMessage cfg irq msg s = { s with fifo := clearFifo s.fifo } := by
  obtain ⟨-, -, h3, -, h5, h6, -⟩ := (opcodesDistinct_iff cfg).1 hd
  unfold dispatchMessage
  rw [if_neg (by rw [h]; exact fun e => h3 e.symm),
    if_neg (by rw [h]; exact fun e => h5 e.symm),
    if_neg (by rw [h]; exact fun e => h6 e.symm), if_pos h]

theorem dispatchMessage_fireNow (cfg : Config) (irq : Nat) (msg : List Nat) (s : State)
    (hd : opcodesDistinct cfg = true) (h : byteAt msg 0 = 0) :
    dispatchMessage cfg irq msg s
      = if byteAt msg 1 &&& cfg.MY_ID ≠ 0 then { s with playNow := 1 } else s := by
  obtain ⟨-, -, -, -, -, -, h7, h8, h9, h10⟩ := (opcodesDistinct_iff cfg).1 hd
  unfold dispatchMessage
  rw [if_neg (by rw [h]; exact fun e => h7 e.symm),
    if_neg (by rw [h]; exact fun e => h8 e.symm),
    if_neg (by rw [h]; exact fun e => h9 e.symm),
    if_neg (by rw [h]; exact fun e => h10 e.symm), if_pos h]

/-- C6, counterexample. With a queue of capacity four that already holds four
entries, a `SCHDL` frame addressed to this node does not append its tick: the
modelled `writeFifo` rejects the insert and the queue stays as it was. -/
theorem C6_counterexample :
    exFull.fifo = [5, 10, 20, 30] ∧ exCfg.FIFO_SIZE = 4 ∧
    byteAt (mkFrame 3 1 40) 0 = exCfg.SCHDL ∧
    byteAt (mkFrame 3 1 40) 1 &&& exCfg.MY_ID ≠ 0 ∧
    (dispatchMessage exCfg 0 (mkFrame 3 1 40) exFull).fifo = [5, 10, 20, 30] ∧
    ¬ ((dispatchMessage exCfg 0 (mkFrame 3 1 40) exFull).fifo
        = exFull.fifo ++ [load32 (mkFrame 3 1 40) 2]) := by
  decide

/-- C6, amended. With pairwise distinct non-zero opcodes: a `SCHDL` or fire-now
(`0x00`) frame whose target mask has no bit in common with `MY_ID` leaves the
whole state unchanged (queue, fire-request flag and clock included); a `SCHDL`
frame whose mask meets `MY_ID` appends the payload tick to the queue tail when
the queue holds fewer entries than its capacity; a fire-now frame whose mask
meets `MY_ID` sets the fire-request flag. -/
theorem C6_target_mask_amended (cfg : Config) (irq : Nat) (msg : List Nat) (s : State)
    (hd : opcodesDistinct cfg = true) :
    ((byteAt msg 0 = cfg.SCHDL ∨ byteAt msg 0 = 0) → byteAt msg 1 &&& cfg.MY_ID = 0 →
      dispatchMessage cfg irq msg s = s) ∧
    (byteAt msg 0 = cfg.SCHDL → byteAt msg 1 &&& cfg.MY_ID ≠ 0 →
      s.fifo.length < cfg.FIFO_SIZE →
      dispatchMessage cfg irq msg s = { s with fifo := s.fifo ++ [load32 msg 2] }) ∧
    (byteAt msg 0 = 0 → byteAt msg 1 &&& cfg.MY_ID ≠ 0 →
      dispatchMessage cfg irq msg s = { s with playNow := 1 }) := by
  refine ⟨?_, ?_, ?_⟩
  · intro hop hm
    rcases hop with hop | hop
    · rw [dispatchMessage_SCHDL cfg irq msg s hd hop, if_neg (by simp [hm])]
    · rw [dispatchMessage_fireNow cfg irq msg s hd hop, if_neg (by simp [hm])]
  · intro hop hm hlen
    rw [dispatchMessage_SCHDL cfg irq msg s hd hop, if_pos hm]
    simp [writeFifo, hlen]
  · intro hop hm
    rw [dispatchMessage_fireNow cfg irq msg s hd hop, if_pos hm]

/-- Witness of the amended C6: target mask `0x2` on the node with
`MY_ID = 0x1`: a `SCHDL` frame is ignored. -/
theorem C6_target_mask_amended_witness :
    opcodesDistinct exCfg = true ∧ exCfg.MY_ID = 1 ∧ byteAt (mkFrame 3 2 7) 1 = 2 ∧
    dispatchMessage exCfg 0 (mkFrame 3 2 7) exScheduled = exScheduled :=
  ⟨by decide, by decide, by decide,
   (C6_target_mask_amended exCfg 0 (mkFrame 3 2 7) exScheduled (by decide)).1
     (Or.inl (by decide)) (by decide)⟩

/-- C7. With pairwise distinct non-zero opcodes, dispatching a frame performs
the action of its opcode and nothing else: `CLKREQ` only appends the reply to
the sent frames (clock, queue and flag untouched); `SETCLK` is exactly
`updateClock(payload)`, in which the target mask does not occur; `SCHDL`
changes no field but the queue; `CANCEL` changes only the queue, which it
clears; fire-now changes no field but the fire-request flag. -/
theorem C7_dispatch_frame (cfg : Config) (irq : Nat) (msg : List Nat) (s : State)
    (hd : opcodesDistinct cfg = true) :
    (byteAt msg 0 = cfg.CLKREQ →
      dispatchMessage cfg irq msg s
        = { s with sent := s.sent ++ [(clkreqReply cfg (getVirtualClock s), 15)] }) ∧
    (byteAt msg 0 = cfg.SETCLK →
      dispatchMessage cfg irq msg s = updateClock (load32 msg 2) irq s) ∧
    (byteAt msg 0 = cfg.SCHDL →
      dispatchMessage cfg irq msg s
        = { s with fifo := (dispatchMessage cfg irq msg s).fifo }) ∧
    (byteAt msg 0 = cfg.CANCEL →
      dispatchMessage cfg irq msg s = { s with fifo := [] }) ∧
    (byteAt msg 0 = 0 →
      dispatchMessage cfg irq msg s
        = { s with playNow := (dispatchMessage cfg irq msg s).playNow }) := by
  refine ⟨dispatchMessage_CLKREQ cfg irq msg s, dispatchMessage_SETCLK cfg irq msg s hd,
    ?_, ?_, ?_⟩
  · intro h
    rw [dispatchMessage_SCHDL cfg irq msg s hd h]
    split <;> rfl
  · intro h
    rw [dispatchMessage_CANCEL cfg irq msg s hd h]
    rfl
  · intro h
    rw [dispatchMessage_fireNow cfg irq msg s hd h]
    split <;> rfl

/-- Witness of C7: a `CANCEL` frame on the queue `[5, 10, 20]` changes only the
queue. -/
theorem C7_dispatch_frame_witness :
    opcodesDistinct exCfg = true ∧
    dispatchMessage exCfg 0 (mkFrame 4 0 0) exScheduled = { exScheduled with fifo := [] } :=
  ⟨by decide,
   (C7_dispatch_frame exCfg 0 (mkFrame 4 0 0) exScheduled (by decide)).2.2.2.1 (by decide)⟩

/-- C8. A frame whose opcode is none of `CLKREQ`, `SETCLK`, `SCHDL`, `CANCEL`,
`0x00` is ignored: the dispatch chain returns the state as it was (clock,
queue, fire-request flag, stick state, sent frames), and the pass that
received it only toggles the yellow LED and records the message counter. -/
theorem C8_unknown_opcode (cfg : Config) (irq : Nat) (msg : List Nat) (cnt : Nat) (s : State)
    (h1 : byteAt msg 0 ≠ cfg.CLKREQ) (h2 : byteAt msg 0 ≠ cfg.SETCLK)
    (h3 : byteAt msg 0 ≠ cfg.SCHDL) (h4 : byteAt msg 0 ≠ cfg.CANCEL)
    (h5 : byteAt msg 0 ≠ 0) :
    dispatchMessage cfg irq msg s = s ∧
    processMessage cfg irq msg cnt s
      = if s.oldMsgCnt ≠ cnt then { s with yellow := !s.yellow, oldMsgCnt := cnt } else s := by
  have hdisp : ∀ s0 : State, dispatchMessage cfg irq msg s0 = s0 := by
    intro s0
    unfold dispatchMessage
    rw [if_neg h1, if_neg h2, if_neg h3, if_neg h4, if_neg h5]
  refine ⟨hdisp s, ?_⟩
  unfold processMessage
  rw [hdisp]

/-- Witness of C8: opcode `9` is ignored by the example node. -/
theorem C8_unknown_opcode_witness :
    byteAt (mkFrame 9 1 7) 0 ≠ exCfg.CLKREQ ∧
    dispatchMessage exCfg 0 (mkFrame 9 1 7) exScheduled = exScheduled :=
  ⟨by decide,
   (C8_unknown_opcode exCfg 0 (mkFrame 9 1 7) 4 exScheduled (by decide) (by decide)
     (by decide) (by decide) (by decide)).1⟩

/-! ## Clock request reply: claim C9 -/

theorem byteAt_lt (msg : List Nat) (i : Nat) : byteAt msg i < 256 := by
  unfold byteAt
  omega

/-- C9. For a 32-bit clock value `v` and byte-sized `ACK` and `MY_ID`, the
`CLKREQ` branch sends to `0xF` the six bytes `CLKREQ|ACK`, `MY_ID` and the
little-endian bytes of `v`, and the 32-bit little-endian load at offset 2 of
that frame (the decoding the receiver applies to `msg`) returns `v`. -/
theorem C9_clkreq_roundtrip (cfg : Config) (irq : Nat) (msg : List Nat) (s : State)
    (hop : byteAt msg 0 = cfg.CLKREQ) (hv : s.virtualClock < 4294967296)
    (hack : cfg.ACK < 256) (hid : cfg.MY_ID < 256) :
    (dispatchMessage cfg irq msg s).sent
      = s.sent ++ [(clkreqReply cfg s.virtualClock, 15)] ∧
    clkreqReply cfg s.virtualClock
      = [cfg.CLKREQ ||| cfg.ACK, cfg.MY_ID, s.virtualClock % 256,
         s.virtualClock / 256 % 256, s.virtualClock / 65536 % 256,
         s.virtualClock / 16777216 % 256] ∧
    load32 (clkreqReply cfg s.virtualClock) 2 = s.virtualClock := by
  have hreq : cfg.CLKREQ < 256 := by
    rw [← hop]
    exact byteAt_lt msg 0
  have hor : cfg.CLKREQ ||| cfg.ACK < 256 :=
    @Nat.or_lt_two_pow cfg.CLKREQ cfg.ACK 8 hreq hack
  refine ⟨?_, ?_, ?_⟩
  · rw [dispatchMessage_CLKREQ cfg irq msg s hop]
    rfl
  · simp [clkreqReply, store32, Nat.mod_eq_of_lt hor, Nat.mod_eq_of_lt hid]
  · simp only [load32, byteAt, clkreqReply, store32, List.cons_append, List.nil_append,
      List.getD_cons_succ, List.getD_cons_zero, Nat.mod_mod]
    omega

/-- Witness of C9: the reply of the example node at clock `305419896`
(`0x12345678`). -/
theorem C9_clkreq_roundtrip_witness :
    byteAt (mkFrame 1 0 0) 0 = exCfg.CLKREQ ∧
    clkreqReply exCfg 305419896 = [129, 1, 120, 86, 52, 18] ∧
    load32 (clkreqReply exCfg 305419896) 2 = 305419896 :=
  ⟨by decide,
   (C9_clkreq_roundtrip exCfg 0 (mkFrame 1 0 0) { initState with virtualClock := 305419896 }
     (by decide) (by decide) (by decide) (by decide)).2⟩

/-! ## Fire requests are served in the pass that raises them: claim C10 -/

theorem updateClock_playNow_le (d irq : Nat) (s : State) (h : s.playNow ≤ 1) :
    (updateClock d irq s).playNow ≤ 1 := by
  simp only [updateClock, setVirtualClock, getVirtualClock]
  split
  · rw [skipLoop_playNow, ticks_playNow]
    split <;> omega
  · rw [ticks_playNow]
    exact h

theorem dispatchMessage_playNow_le (cfg : Config) (irq : Nat) (msg : List Nat) (s : State)
    (h : s.playNow ≤ 1) : (dispatchMessage cfg irq msg s).playNow ≤ 1 := by
  unfold dispatchMessage
  split
  · exact h
  · split
    · exact updateClock_playNow_le _ irq s h
    · split
      · split
        · exact h
        · exact h
      · split
        · exact h
        · split
          · split
            · exact Nat.le_refl 1
            · exact h
          · exact h

theorem processMessage_playNow_le (cfg : Config) (irq : Nat) (msg : List Nat) (cnt : Nat)
    (s : State) (h : s.playNow ≤ 1) : (processMessage cfg irq msg cnt s).playNow ≤ 1 := by
  unfold processMessage
  split
  · exact dispatchMessage_playNow_le cfg irq msg _ h
  · exact h

theorem checkScheduled_playNow_le (s : State) (h : s.playNow ≤ 1) :
    (checkScheduled s).playNow ≤ 1 := by
  unfold checkScheduled
  split
  · split
    · exact Nat.le_refl 1
    · exact h
  · exact h

theorem retractStick_playNow (cfg : Config) (irq : Nat) (s : State) :
    (retractStick cfg irq s).playNow = s.playNow := by
  unfold retractStick
  split
  · split
    · split
      · simp [ticks_playNow]
      · rfl
      · rfl
    · rfl
  · split
    · split <;> rfl
    · rfl

theorem playDrum_playNow_zero (cfg : Config) (irq : Nat) (s : State) (h : s.playNow ≤ 1) :
    (playDrum cfg irq s).playNow = 0 := by
  by_cases h1 : s.playNow = 1
  · exact playDrum_playNow cfg irq s h1
  · unfold playDrum
    rw [if_neg h1]
    omega

theorem mainLoopBody_playNow (cfg : Config) (inp : Input) (s : State) (h : s.playNow ≤ 1) :
    (mainLoopBody cfg inp s).playNow = 0 := by
  unfold mainLoopBody
  apply playDrum_playNow_zero
  rw [retractStick_playNow, ticks_playNow]
  apply checkScheduled_playNow_le
  rw [ticks_playNow]
  apply processMessage_playNow_le
  rw [ticks_playNow]
  exact h

/-- C10. From any state whose flag `playNow` is `0` or `1` (the only values the
program writes; `0` at startup), after every pass of the control loop, whatever
frames and timer interrupts the passes receive, the flag is `0` again: a
request raised in a pass by a fire-now frame, by the catch-up of `updateClock`
or by the scheduled-hit check has been served by the play block of that pass. -/
theorem C10_flag_cleared_each_pass (cfg : Config) (s : State) (hs : s.playNow ≤ 1)
    (inp : Input) (rest : List Input) :
    (runLoop cfg (inp :: rest) s).playNow = 0 := by
  induction rest generalizing s inp with
  | nil => exact mainLoopBody_playNow cfg inp s hs
  | cons inp2 rest ih =>
    rw [runLoop]
    exact ih (mainLoopBody cfg inp s) (by rw [mainLoopBody_playNow cfg inp s hs]; omega) inp2

/-- Witness of C10: after startup, a pass that receives a fire-now frame for
this node ends with the flag cleared. -/
theorem C10_flag_cleared_each_pass_witness :
    initState.playNow ≤ 1 ∧
    (runLoop exCfg [quietPass (mkFrame 0 1 0) 1] initState).playNow = 0 :=
  ⟨by decide,
   C10_flag_cleared_each_pass exCfg initState (by decide) (quietPass (mkFrame 0 1 0) 1) []⟩

/-! ## The play block: claims C11 and C12 -/

/-- C11. When a fire request is pending (`playNow == 1`) and the stick is `HIT`
or `RETRACTED`, the play block drops the request: `hitDrum` is not called, the
stick state and `retractTime` are unchanged and the flag is cleared; apart from
the flag only the red LED changes. -/
theorem C11_fire_dropped (cfg : Config) (irq : Nat) (s : State) (hReq : s.playNow = 1)
    (hBusy : s.stickStatus = StickStatus.HIT ∨ s.stickStatus = StickStatus.RETRACTED) :
    (playDrum cfg irq s).drum = s.drum ∧
    (playDrum cfg irq s).stickStatus = s.stickStatus ∧
    (playDrum cfg irq s).retractTime = s.retractTime ∧
    (playDrum cfg irq s).playNow = 0 ∧
    playDrum cfg irq s = { s with red := !s.red, playNow := 0 } := by
  have hne : s.stickStatus ≠ StickStatus.READY := by
    rcases hBusy with h | h <;> rw [h] <;> decide
  rw [playDrum_rejects cfg irq s hReq hne]
  exact ⟨rfl, rfl, rfl, rfl, rfl⟩

/-- Witness of C11: the stick engaged at `T = 0`, request at clock `10`. -/
theorem C11_fire_dropped_witness :
    exCooling.playNow = 1 ∧ exCooling.stickStatus = StickStatus.HIT ∧
    (playDrum exCfg 0 exCooling).drum = exCooling.drum ∧
    (playDrum exCfg 0 exCooling).stickStatus = exCooling.stickStatus ∧
    (playDrum exCfg 0 exCooling).retractTime = exCooling.retractTime ∧
    (playDrum exCfg 0 exCooling).playNow = 0 ∧
    playDrum exCfg 0 exCooling = { exCooling with red := !exCooling.red, playNow := 0 } :=
  ⟨by decide, by decide,
   C11_fire_dropped exCfg 0 exCooling (by decide) (Or.inl (by decide))⟩

/-- C12. When a fire request is pending and the stick is `READY`, the play
block calls `hitDrum(1)`, sets the stick to `HIT` and sets
`retractTime = (clock + COOLDOWN*64) mod 2^32` for the clock value it reads
(after the `irq` timer interrupts that precede the read); the flag is
cleared. -/
theorem C12_fire_when_ready (cfg : Config) (irq : Nat) (s : State) (hReq : s.playNow = 1)
    (hReady : s.stickStatus = StickStatus.READY) :
    (playDrum cfg irq s).drum = s.drum ++ [1] ∧
    (playDrum cfg irq s).stickStatus = StickStatus.HIT ∧
    (playDrum cfg irq s).retractTime
      = (getVirtualClock (ticks irq s) + cfg.COOLDOWN * 64) % 4294967296 ∧
    (playDrum cfg irq s).playNow = 0 := by
  have hc : (ticks irq
      { s with
        stickStatus := StickStatus.HIT, drum := s.drum ++ [1], red := !s.red,
        playNow := 0 }).virtualClock = (ticks irq s).virtualClock :=
    ticks_virtualClock_congr irq _ _ rfl
  simp [playDrum, hReq, hReady, getVirtualClock, ticks_drum, ticks_stickStatus,
    ticks_playNow, hc]

/-- Witness of C12: a request pending at startup, three interrupts before the
clock read: the stick is engaged and `retractTime = 3 + 64`. -/
theorem C12_fire_when_ready_witness :
    exPending.playNow = 1 ∧ exPending.stickStatus = StickStatus.READY ∧
    (playDrum exCfg 3 exPending).drum = [1] ∧
    (playDrum exCfg 3 exPending).stickStatus = StickStatus.HIT ∧
    (playDrum exCfg 3 exPending).retractTime = 67 ∧
    (playDrum exCfg 3 exPending).playNow = 0 :=
  ⟨by decide, by decide, C12_fire_when_ready exCfg 3 exPending (by decide) (by decide)⟩

/-! ## The retract block: claim C13 -/

/-- C13, counterexample. The stick engaged at `T = 0` with retract time `64`,
seen at clock `64`. Built with `SINGLE_STICK`, the retract block does not go to
`READY`: it calls `hitDrum(0)` and leaves the stick `RETRACTED` with a second
retract time `128`. Built without `SINGLE_STICK`, it goes straight to `READY`
without any call of `hitDrum`. -/
theorem C13_counterexample :
    (exCfgSingle.SINGLE_STICK = true ∧ exDueSingle.stickStatus = StickStatus.HIT ∧
      getVirtualClock exDueSingle = exDueSingle.retractTime ∧
      (retractStick exCfgSingle 0 exDueSingle).stickStatus = StickStatus.RETRACTED ∧
      (retractStick exCfgSingle 0 exDueSingle).stickStatus ≠ StickStatus.READY ∧
      (retractStick exCfgSingle 0 exDueSingle).drum = exDueSingle.drum ++ [0] ∧
      (retractStick exCfgSingle 0 exDueSingle).retractTime = 128) ∧
    (exCfg.SINGLE_STICK = false ∧ exDue.stickStatus = StickStatus.HIT ∧
      getVirtualClock exDue = exDue.retractTime ∧
      (retractStick exCfg 0 exDue).stickStatus = StickStatus.READY ∧
      (retractStick exCfg 0 exDue).drum = exDue.drum ∧
      (retractStick exCfg 0 exDue).retractTime = exDue.retractTime) := by
  decide

/-- C13, amended. When the retract check reads a clock equal to `retractTime`
while the stick is `HIT`: built without `SINGLE_STICK` the stick goes directly
to `READY` and nothing else changes; built with `SINGLE_STICK` the block calls
`hitDrum(0)`, sets the stick to `RETRACTED` and sets
`retractTime = (clock + COOLDOWN*64) mod 2^32` for the clock it reads next, and
a `RETRACTED` stick becomes `READY` in the retract block exactly when the
clock read equals that `retractTime`. -/
theorem C13_retract_by_configuration (cfg : Config) (irq : Nat) (s : State)
    (hv : getVirtualClock s = s.retractTime) :
    (cfg.SINGLE_STICK = false → s.stickStatus = StickStatus.HIT →
      retractStick cfg irq s = { s with stickStatus := StickStatus.READY }) ∧
    (cfg.SINGLE_STICK = true → s.stickStatus = StickStatus.HIT →
      (retractStick cfg irq s).drum = s.drum ++ [0] ∧
      (retractStick cfg irq s).stickStatus = StickStatus.RETRACTED ∧
      (retractStick cfg irq s).retractTime
        = (getVirtualClock (ticks irq s) + cfg.COOLDOWN * 64) % 4294967296) ∧
    (cfg.SINGLE_STICK = true → ∀ s2 : State, s2.stickStatus = StickStatus.RETRACTED →
      ((retractStick cfg irq s2).stickStatus = StickStatus.READY
        ↔ getVirtualClock s2 = s2.retractTime)) := by
  refine ⟨?_, ?_, ?_⟩
  · intro hS hHit
    unfold retractStick
    simp [hS, hv, hHit]
  · intro hS hHit
    have hc : (ticks irq
        { s with
          drum := s.drum ++ [0], stickStatus := StickStatus.RETRACTED }).virtualClock
          = (ticks irq s).virtualClock :=
      ticks_virtualClock_congr irq _ _ rfl
    unfold retractStick
    rw [if_pos hS, if_pos hv]
    simp only [hHit, getVirtualClock, hc, ticks_drum, ticks_stickStatus, and_self]
  · intro hS s2 hR
    unfold retractStick
    by_cases h2 : getVirtualClock s2 = s2.retractTime
    · simp [hS, h2, hR]
    · simp [hS, h2, hR]

/-- Witness of the amended C13: built with `SINGLE_STICK`, the stick engaged at
`T = 0` is retracted at clock `64` and gets the retract time `128`. -/
theorem C13_retract_by_configuration_witness :
    getVirtualClock exDueSingle = exDueSingle.retractTime ∧
    (retractStick exCfgSingle 0 exDueSingle).drum = exDueSingle.drum ++ [0] ∧
    (retractStick exCfgSingle 0 exDueSingle).stickStatus = StickStatus.RETRACTED ∧
    (retractStick exCfgSingle 0 exDueSingle).retractTime = 128 :=
  ⟨by decide,
   (C13_retract_by_configuration exCfgSingle 0 exDueSingle (by decide)).2.1
     (by decide) (by decide)⟩

/-! ## The scheduled-hit check: claim C14 -/

/-- C14. The scheduled-hit check pops the head of the queue and sets `playNow`
exactly when the queue is not empty and its head tick equals the clock read;
in every other case (empty queue, head tick different from the clock, also a
head tick in the past) it changes nothing. The decision depends on the head
only: the entries behind it are handed on untouched, whatever they are. -/
theorem C14_checkScheduled (s : State) :
    checkScheduled s
      = (if s.fifo.head? = some (getVirtualClock s) then
          { s with playNow := 1, fifo := s.fifo.tail }
        else s) ∧
    (∀ (a : Nat) (t1 t2 : List Nat),
      (checkScheduled { s with fifo := a :: t1 }).playNow
        = (checkScheduled { s with fifo := a :: t2 }).playNow ∧
      ((checkScheduled { s with fifo := a :: t1 }).fifo = t1 ∨
        (checkScheduled { s with fifo := a :: t1 }).fifo = a :: t1)) := by
  refine ⟨?_, ?_⟩
  · unfold checkScheduled peekFifo readFifo
    cases hq : s.fifo with
    | nil => simp
    | cons a t =>
      by_cases ha : a = getVirtualClock s
      · simp [ha]
      · simp [ha]
  · intro a t1 t2
    unfold checkScheduled peekFifo readFifo getVirtualClock
    by_cases ha : a = s.virtualClock
    · simp [ha]
    · simp [ha]

/-! ## Cancel-all: claim C15 -/

/-- C15. With pairwise distinct non-zero opcodes, dispatching a `CANCEL` frame
leaves the schedule queue empty whatever it held, and dispatching it a second
time gives the same state as dispatching it once. -/
theorem C15_cancel_all (cfg : Config) (irq : Nat) (msg : List Nat) (s : State)
    (hd : opcodesDistinct cfg = true) (hop : byteAt msg 0 = cfg.CANCEL) :
    (dispatchMessage cfg irq msg s).fifo = [] ∧
    dispatchMessage cfg irq msg (dispatchMessage cfg irq msg s)
      = dispatchMessage cfg irq msg s := by
  rw [dispatchMessage_CANCEL cfg irq msg s hd hop, dispatchMessage_CANCEL cfg irq msg _ hd hop]
  exact ⟨rfl, rfl⟩

/-- Witness of C15: a `CANCEL` frame empties the queue `[5, 10, 20]`. -/
theorem C15_cancel_all_witness :
    opcodesDistinct exCfg = true ∧ byteAt (mkFrame 4 0 0) 0 = exCfg.CANCEL ∧
    (dispatchMessage exCfg 0 (mkFrame 4 0 0) exScheduled).fifo = [] ∧
    dispatchMessage exCfg 0 (mkFrame 4 0 0) (dispatchMessage exCfg 0 (mkFrame 4 0 0) exScheduled)
      = dispatchMessage exCfg 0 (mkFrame 4 0 0) exScheduled :=
  ⟨by decide, by decide,
   C15_cancel_all exCfg 0 (mkFrame 4 0 0) exScheduled (by decide) (by decide)⟩

/-! ## Adjustments that do not move the clock forward: claim C17 -/

/-- C17. When `newValue = (c + d) mod 2^32` is not greater than the clock `c`
read on entry (delta `0`, or an addition that wraps), `updateClock` runs no
catch-up: the queue and the flag `playNow` are as before even if the queue
holds entries, the result is the state left by the timer interrupts with the
clock overwritten, and without interrupts only the clock changes. -/
theorem C17_no_catchup_backward (d irq : Nat) (s : State)
    (h : (s.virtualClock + d) % 4294967296 ≤ s.virtualClock) :
    (updateClock d irq s).fifo = s.fifo ∧
    (updateClock d irq s).playNow = s.playNow ∧
    updateClock d irq s
      = setVirtualClock ((s.virtualClock + d) % 4294967296) (ticks irq s) ∧
    updateClock d 0 s = { s with virtualClock := (s.virtualClock + d) % 4294967296 } := by
  have hn : ¬ (s.virtualClock + d) % 4294967296 > s.virtualClock := by omega
  have he : ∀ k : Nat, updateClock d k s
      = setVirtualClock ((s.virtualClock + d) % 4294967296) (ticks k s) := by
    intro k
    simp only [updateClock, getVirtualClock, if_neg hn]
  refine ⟨?_, ?_, he irq, ?_⟩
  · rw [he irq]
    exact ticks_fifo irq s
  · rw [he irq]
    exact ticks_playNow irq s
  · rw [he 0]
    rfl

/-- Witness of C17: queue `[5, 10, 20]` at clock `100`, an adjustment that
wraps to `94`: the three entries, all below `94`, stay in the queue. -/
theorem C17_no_catchup_backward_witness :
    (exLate.virtualClock + 4294967290) % 4294967296 ≤ exLate.virtualClock ∧
    (updateClock 4294967290 0 exLate).fifo = [5, 10, 20] ∧
    (updateClock 4294967290 0 exLate).playNow = 0 ∧
    updateClock 4294967290 0 exLate = setVirtualClock 94 (ticks 0 exLate) ∧
    updateClock 4294967290 0 exLate = { exLate with virtualClock := 94 } :=
  ⟨by decide, C17_no_catchup_backward 4294967290 0 exLate (by decide)⟩

/-! ## Catch-up on a sorted queue: claim C18 -/

theorem dropWhile_sorted_ge (nv : Nat) (l : List Nat)
    (hs : l.Pairwise (fun a b => a ≤ b)) :
    ∀ t ∈ l.dropWhile (fun t => decide (t < nv)), nv ≤ t := by
  induction l with
  | nil => intro t ht; simp at ht
  | cons a l ih =>
    rw [List.pairwise_cons] at hs
    by_cases ha : a < nv
    · simpa [List.dropWhile_cons, ha] using ih hs.2
    · intro t ht
      simp only [List.dropWhile_cons, ha, decide_False, Bool.false_eq_true, if_false,
        List.mem_cons] at ht
      rcases ht with rfl | ht
      · omega
      · have := hs.1 t ht
        omega

theorem dropWhile_sorted_length (nv : Nat) (l : List Nat)
    (hs : l.Pairwise (fun a b => a ≤ b)) :
    (l.dropWhile (fun t => decide (t < nv))).length
      + l.countP (fun t => decide (t < nv)) = l.length := by
  induction l with
  | nil => rfl
  | cons a l ih =>
    rw [List.pairwise_cons] at hs
    by_cases ha : a < nv
    · have := ih hs.2
      simp only [List.dropWhile_cons, ha, decide_True, if_true, List.countP_cons_of_pos,
        List.length_cons]
      omega
    · have hall : l.countP (fun t => decide (t < nv)) = 0 := by
        rw [List.countP_eq_zero]
        intro t ht
        have := hs.1 t ht
        simp only [decide_eq_true_eq]
        omega
      simp [List.dropWhile_cons, ha, List.countP_cons, hall]

/-- C18. For a queue whose ticks are in non-decreasing order and a forward
adjustment, every entry left in the queue by `updateClock` has a tick at least
the new clock value, and the number of entries removed is the number of entries
of the old queue with a tick below the new clock value. Order is needed: on the
unsorted queue `[20, 5]`, clock `0`, adjustment `15`, nothing is removed and the
entry `5`, below `15`, stays. -/
theorem C18_sorted_catchup (d irq : Nat) (s : State)
    (hs : s.fifo.Pairwise (fun a b => a ≤ b))
    (h : s.virtualClock < (s.virtualClock + d) % 4294967296) :
    (∀ t ∈ (updateClock d irq s).fifo, getVirtualClock (updateClock d irq s) ≤ t) ∧
    s.fifo.length - (updateClock d irq s).fifo.length
      = s.fifo.countP (fun t => decide (t < (s.virtualClock + d) % 4294967296)) ∧
    (exUnsorted.virtualClock < (exUnsorted.virtualClock + 15) % 4294967296 ∧
      (updateClock 15 0 exUnsorted).fifo = [20, 5] ∧
      ∃ t ∈ (updateClock 15 0 exUnsorted).fifo,
        t < getVirtualClock (updateClock 15 0 exUnsorted)) := by
  refine ⟨?_, ?_, ?_⟩
  · rw [updateClock_fifo_forward d irq s h]
    unfold getVirtualClock
    rw [updateClock_virtualClock]
    exact dropWhile_sorted_ge _ s.fifo hs
  · rw [updateClock_fifo_forward d irq s h]
    have := dropWhile_sorted_length ((s.virtualClock + d) % 4294967296) s.fifo hs
    omega
  · have hf : (updateClock 15 0 exUnsorted).fifo = [20, 5] := by
      rw [updateClock_fifo_forward 15 0 exUnsorted (by decide)]
      decide
    refine ⟨by decide, hf, 5, ?_, ?_⟩
    · rw [hf]
      decide
    · unfold getVirtualClock
      rw [updateClock_virtualClock]
      decide

/-- Witness of C18: the sorted queue `[5, 10, 20]`, clock `0`, adjustment
`15`: two entries are below `15` and two are removed. -/
theorem C18_sorted_catchup_witness :
    exQueued.fifo.Pairwise (fun a b => a ≤ b) ∧
    exQueued.virtualClock < (exQueued.virtualClock + 15) % 4294967296 ∧
    exQueued.fifo.length - (updateClock 15 0 exQueued).fifo.length = 2 :=
  ⟨by decide, by decide, (C18_sorted_catchup 15 0 exQueued (by decide) (by decide)).2.1⟩

/-! ## Termination of the catch-up loop: claim C19 -/

theorem skipCond_false_iff (nv : Nat) (s : State) :
    skipCond nv s = false ↔ (s.fifo = [] ∨ ∃ a t, s.fifo = a :: t ∧ nv ≤ a) := by
  unfold skipCond peekFifo
  cases hq : s.fifo with
  | nil => simp
  | cons a t => simp

theorem skipLoop_iterate (nv : Nat) : ∀ (q : List Nat) (s : State), s.fifo = q →
    ∃ k, k ≤ q.length ∧ skipLoop nv s = Nat.iterate skipBody k s ∧
      (∀ j, j < k → skipCond nv (Nat.iterate skipBody j s) = true ∧
        (Nat.iterate skipBody (j + 1) s).fifo.length + 1
          = (Nat.iterate skipBody j s).fifo.length) ∧
      skipCond nv (Nat.iterate skipBody k s) = false := by
  intro q
  induction q with
  | nil =>
    intro s h
    have hc : skipCond nv s = false := by simp [skipCond, peekFifo, h]
    refine ⟨0, Nat.le_refl _, ?_, ?_, hc⟩
    · rw [skipLoop, hc]
      rfl
    · intro j hj
      omega
  | cons a t ih =>
    intro s h
    by_cases ha : a < nv
    · have hc : skipCond nv s = true := by simp [skipCond, peekFifo, h, ha]
      have hb : (skipBody s).fifo = t := by simp [skipBody, readFifo, h]
      obtain ⟨k, hk, he, hj, hx⟩ := ih (skipBody s) hb
      refine ⟨k + 1, by simp only [List.length_cons]; omega, ?_, ?_, hx⟩
      · rw [skipLoop, if_pos hc, he]
        rfl
      · intro j hjk
        cases j with
        | zero =>
          refine ⟨hc, ?_⟩
          show (skipBody s).fifo.length + 1 = s.fifo.length
          rw [hb, h]
          rfl
        | succ j => exact hj j (by omega)
    · have hc : skipCond nv s = false := by simp [skipCond, peekFifo, h, ha]
      refine ⟨0, Nat.zero_le _, ?_, ?_, hc⟩
      · rw [skipLoop, hc]
        rfl
      · intro j hj
        omega

/-- C19. The catch-up loop of `updateClock` ends, for every queue and every
delta: entered in the state `ticks irq s` with `newValue`, it is `k` runs of
its body for some `k` not above the length of the queue; the loop condition
holds before each of the `k` runs and each run shortens the queue by one entry;
after them the condition fails, that is, the queue is empty or its head tick is
at least `newValue`; and a forward `updateClock` is these `k` runs followed by
the write of the clock. -/
theorem C19_catchup_terminates (d irq : Nat) (s : State) :
    ∃ k, k ≤ s.fifo.length ∧
      skipLoop ((s.virtualClock + d) % 4294967296) (ticks irq s)
        = Nat.iterate skipBody k (ticks irq s) ∧
      (∀ j, j < k →
        skipCond ((s.virtualClock + d) % 4294967296)
          (Nat.iterate skipBody j (ticks irq s)) = true ∧
        (Nat.iterate skipBody (j + 1) (ticks irq s)).fifo.length + 1
          = (Nat.iterate skipBody j (ticks irq s)).fifo.length) ∧
      skipCond ((s.virtualClock + d) % 4294967296)
        (Nat.iterate skipBody k (ticks irq s)) = false ∧
      ((Nat.iterate skipBody k (ticks irq s)).fifo = [] ∨
        ∃ a t, (Nat.iterate skipBody k (ticks irq s)).fifo = a :: t ∧
          (s.virtualClock + d) % 4294967296 ≤ a) ∧
      (s.virtualClock < (s.virtualClock + d) % 4294967296 →
        updateClock d irq s
          = setVirtualClock ((s.virtualClock + d) % 4294967296)
              (Nat.iterate skipBody k (ticks irq s))) := by
  obtain ⟨k, hk, he, hj, hx⟩ :=
    skipLoop_iterate ((s.virtualClock + d) % 4294967296) (ticks irq s).fifo (ticks irq s) rfl
  rw [ticks_fifo] at hk
  refine ⟨k, hk, he, hj, hx, (skipCond_false_iff _ _).1 hx, ?_⟩
  intro hf
  rw [← he]
  simp only [updateClock, getVirtualClock]
  rw [if_pos hf]

/-- Witness of C19: queue `[5, 10, 20]`, clock `0`, adjustment `15`: the
forward `updateClock` is the write of the clock after at most three runs of the
loop body. -/
theorem C19_catchup_terminates_witness :
    ∃ k, k ≤ 3 ∧
      updateClock 15 0 exQueued = setVirtualClock 15 (Nat.iterate skipBody k exQueued) := by
  obtain ⟨k, hk, -, -, -, -, hu⟩ := C19_catchup_terminates 15 0 exQueued
  exact ⟨k, hk, hu (by decide)⟩

/-! ## At most one hit per pass: claim C20 -/

theorem updateClock_drum (d irq : Nat) (s : State) : (updateClock d irq s).drum = s.drum := by
  simp only [updateClock, setVirtualClock, getVirtualClock]
  split
  · rw [skipLoop_eq _ _ _ rfl]
    exact ticks_drum irq s
  · exact ticks_drum irq s

theorem dispatchMessage_drum (cfg : Config) (irq : Nat) (msg : List Nat) (s : State) :
    (dispatchMessage cfg irq msg s).drum = s.drum := by
  unfold dispatchMessage
  split
  · rfl
  · split
    · exact updateClock_drum _ irq s
    · split
      · split <;> rfl
      · split
        · rfl
        · split
          · split <;> rfl
          · rfl

theorem processMessage_drum (cfg : Config) (irq : Nat) (msg : List Nat) (cnt : Nat)
    (s : State) : (processMessage cfg irq msg cnt s).drum = s.drum := by
  unfold processMessage
  split
  · rw [dispatchMessage_drum]
  · rfl

theorem checkScheduled_drum (s : State) : (checkScheduled s).drum = s.drum := by
  unfold checkScheduled
  split
  · split <;> rfl
  · rfl

theorem beforeCheck_drum (cfg : Config) (inp : Input) (s : State) :
    (beforeCheck cfg inp s).drum = s.drum := by
  unfold beforeCheck
  rw [ticks_drum, processMessage_drum, ticks_drum]

theorem retractStick_hitCount (cfg : Config) (irq : Nat) (s : State) :
    hitCount (retractStick cfg irq s).drum = hitCount s.drum := by
  unfold retractStick
  split
  · split
    · split
      · simp [ticks_drum, hitCount]
      · rfl
      · rfl
    · rfl
  · split
    · split <;> rfl
    · rfl

theorem retractStick_fifo (cfg : Config) (irq : Nat) (s : State) :
    (retractStick cfg irq s).fifo = s.fifo := by
  unfold retractStick
  split
  · split
    · split
      · simp [ticks_fifo]
      · rfl
      · rfl
    · rfl
  · split
    · split <;> rfl
    · rfl

theorem playDrum_fifo (cfg : Config) (irq : Nat) (s : State) :
    (playDrum cfg irq s).fifo = s.fifo := by
  by_cases h : s.playNow = 1
  · unfold playDrum
    rw [if_pos h]
    cases hs : s.stickStatus <;> simp [hs, ticks_fifo]
  · unfold playDrum
    rw [if_neg h]

theorem playDrum_drum_eq (cfg : Config) (irq : Nat) (s : State) :
    (playDrum cfg irq s).drum
      = s.drum ++ (if s.playNow = 1 ∧ s.stickStatus = StickStatus.READY then [1] else []) := by
  by_cases h : s.playNow = 1
  · rw [playDrum_drum cfg irq s h]
    by_cases hr : s.stickStatus = StickStatus.READY
    · simp [h, hr]
    · simp [hr]
  · unfold playDrum
    simp [h]

theorem beforePlay_hitCount (cfg : Config) (inp : Input) (s : State) :
    hitCount (beforePlay cfg inp s).drum = hitCount s.drum := by
  unfold beforePlay
  rw [retractStick_hitCount, ticks_drum, checkScheduled_drum, beforeCheck_drum]

/-- C20. In every pass of the control loop, for all frames and timer
interrupts: the only call `hitDrum(1)` is the one of the play block, made when
the flag is set and the stick is `READY` at that point, so the pass makes at
most one such call however many requests were raised before it, and a pass
that makes one finds the stick `READY`; and when the scheduled-hit check finds
the head tick equal to the clock, the queue of the pass ends without that
head, whatever the flag and the stick state were. -/
theorem C20_one_hit_per_pass (cfg : Config) (inp : Input) (s : State) :
    (mainLoopBody cfg inp s).drum
      = (beforePlay cfg inp s).drum ++
          (if (beforePlay cfg inp s).playNow = 1 ∧
              (beforePlay cfg inp s).stickStatus = StickStatus.READY then [1] else []) ∧
    hitCount (beforePlay cfg inp s).drum = hitCount s.drum ∧
    hitCount (mainLoopBody cfg inp s).drum ≤ hitCount s.drum + 1 ∧
    (hitCount (mainLoopBody cfg inp s).drum = hitCount s.drum + 1 →
      (beforePlay cfg inp s).stickStatus = StickStatus.READY) ∧
    (∀ (a : Nat) (t : List Nat), (beforeCheck cfg inp s).fifo = a :: t →
      a = getVirtualClock (beforeCheck cfg inp s) → (mainLoopBody cfg inp s).fifo = t) := by
  have hm : mainLoopBody cfg inp s = playDrum cfg inp.irqPlay (beforePlay cfg inp s) := rfl
  have hd := playDrum_drum_eq cfg inp.irqPlay (beforePlay cfg inp s)
  have hb := beforePlay_hitCount cfg inp s
  refine ⟨by rw [hm, hd], hb, ?_, ?_, ?_⟩
  · rw [hm, hd, ← hb]
    split <;> simp [hitCount]
  · intro h
    rw [hm, hd, ← hb] at h
    by_cases hc : (beforePlay cfg inp s).playNow = 1 ∧
        (beforePlay cfg inp s).stickStatus = StickStatus.READY
    · exact hc.2
    · rw [if_neg hc] at h
      simp [hitCount] at h
  · intro a t hq ha
    rw [hm, playDrum_fifo]
    unfold beforePlay
    rw [retractStick_fifo, ticks_fifo]
    unfold checkScheduled peekFifo readFifo
    simp [hq, ha]

/-- Witness of C20: queue `[5, 7]`; at clock `5` a fire-now frame arrives in
the pass whose scheduled-hit check finds the head `5` due: the two requests
give one call `hitDrum(1)` and the head is removed. -/
theorem C20_one_hit_per_pass_witness :
    (beforeCheck exCfg (latePass 5 (mkFrame 0 1 0) 3) exTwoQueued).fifo = [5, 7] ∧
    (beforeCheck exCfg (latePass 5 (mkFrame 0 1 0) 3) exTwoQueued).playNow = 1 ∧
    hitCount (mainLoopBody exCfg (latePass 5 (mkFrame 0 1 0) 3) exTwoQueued).drum
      = hitCount exTwoQueued.drum + 1 ∧
    (mainLoopBody exCfg (latePass 5 (mkFrame 0 1 0) 3) exTwoQueued).fifo = [7] :=
  ⟨by decide, by decide, by decide,
   (C20_one_hit_per_pass exCfg (latePass 5 (mkFrame 0 1 0) 3) exTwoQueued).2.2.2.2 5 [7]
     (by decide) (by decide)⟩

end WizziSlave
